import Mathlib

/-!
Verification of the Dot soul core (src/soul/soul.ts) against its
natural-language specification.

The embedded code is the perception router registered with
`dot.onPerception`, the four mental-process behaviors registered with
`dot.on`, and the memory write path.  The TypeScript `switch` on the
perception type tag is an exact-string dispatch with a default branch;
it is embedded as a chain of string-equality tests, first match wins.
Capability calls (`soul.speak`, `soul.think`, `soul.observe`) and the
memory append (`soul.remember`) are recorded in an event trace so that
call counts and ordering can be stated.  The memory store is modelled
as an append-only log together with a flag saying whether its append
operation fails, giving both branches of the `await soul.remember`
call: success appends a record, failure aborts the handler before the
acknowledgment `think`, exactly as a rejected promise aborts the async
arrow function in the source.
-/

/-- Identity profile: the constructor arguments of `new Soul` in
soul.ts that the core ever references (the blueprint text is prompt
context the router never branches on). -/
structure Identity where
  name : String
  description : String
deriving DecidableEq

/-- A perception: content plus a type tag, as destructured by
`const \x7b content, type \x7d = perception` in soul.ts. -/
structure Perception where
  type : String
  content : String
deriving DecidableEq

/-- Discriminated result of processing one perception. -/
inductive ActionResult where
  | Spoken (text : String)
  | Thought (text : String)
  | Observed (text : String)
deriving DecidableEq

/-- A record written to the memory store when an `experience`
perception is remembered. -/
structure MemoryRecord where
  content : String
  timestamp : Nat
  owner : Identity
deriving DecidableEq

/-- Failure of the memory append path (a rejected `soul.remember`
promise in the source). -/
inductive StorageError where
  | appendFailed
deriving DecidableEq

/-- The memory store: an append-only log, plus a flag modelling
whether its append operation fails. -/
structure MemoryStore where
  log : List MemoryRecord
  failing : Bool
deriving DecidableEq

/-- Append to the memory store: fails when the store is failing,
otherwise adds the record at the end of the log. -/
def MemoryStore.append (s : MemoryStore) (r : MemoryRecord) :
    Except StorageError MemoryStore :=
  if s.failing then .error .appendFailed
  else .ok { s with log := s.log ++ [r] }

/-- A fresh, working memory store with an empty log. -/
def freshStore : MemoryStore := { log := [], failing := false }

/-- Injected generation-backend capabilities, each a text-to-text
black box. -/
structure Capabilities where
  speak : String → String
  think : String → String
  observe : String → String

/-- One observable call made while processing a perception. -/
inductive Event where
  | AppendEv (r : MemoryRecord)
  | SpeakEv (text : String)
  | ThinkEv (text : String)
  | ObserveEv (text : String)
deriving DecidableEq

/-- Whether an event is a memory append. -/
def Event.isAppend : Event → Bool
  | .AppendEv _ => true
  | _ => false

/-- Whether an event is a `speak` capability call. -/
def Event.isSpeak : Event → Bool
  | .SpeakEv _ => true
  | _ => false

/-- Whether an event is a `think` capability call. -/
def Event.isThink : Event → Bool
  | .ThinkEv _ => true
  | _ => false

/-- The fixed acknowledgment passed to `think` after remembering an
experience, from soul.ts line 82. -/
def ackMessage : String := "I\x27ll remember this..."

/-- The perception router of `dot.onPerception` in soul.ts.  Returns
the action result (or the storage error that aborted the handler)
together with the updated store, and the trace of capability and
append calls in the order the source makes them. -/
def onPerception (caps : Capabilities) (identity : Identity) (now : Nat)
    (store : MemoryStore) (p : Perception) :
    Except StorageError (ActionResult × MemoryStore) × List Event :=
  if p.type = "user_message" then
    (.ok (.Spoken (caps.speak p.content), store), [.SpeakEv p.content])
  else if p.type = "self_reflection" then
    (.ok (.Thought (caps.think p.content), store), [.ThinkEv p.content])
  else if p.type = "experience" then
    let r : MemoryRecord := { content := p.content, timestamp := now, owner := identity }
    match store.append r with
    | .error e => (.error e, [.AppendEv r])
    | .ok store2 =>
        (.ok (.Thought (caps.think ackMessage), store2),
         [.AppendEv r, .ThinkEv ackMessage])
  else
    (.ok (.Observed (caps.observe p.content), store), [.ObserveEv p.content])

/-- The sole entry point of the core, named as in the specification;
it is the router of `dot.onPerception`. -/
def processPerception (caps : Capabilities) (identity : Identity) (now : Nat)
    (store : MemoryStore) (p : Perception) :
    Except StorageError (ActionResult × MemoryStore) × List Event :=
  onPerception caps identity now store p

/-- Fixed string of the `idle` behavior in soul.ts. -/
def idleMessage : String := "I wonder what interesting things I might discover today..."

/-- Fixed string of the `curious` behavior in soul.ts. -/
def curiousMessage : String := "This is fascinating! I want to understand more..."

/-- Fixed string of the `empathetic` behavior in soul.ts. -/
def empatheticMessage : String := "I sense something meaningful here. Let me be present..."

/-- Fixed string of the `playful` behavior in soul.ts. -/
def playfulMessage : String := "*wiggles antennae happily* This is fun!"

/-- The `idle` behavior registered with `dot.on` in soul.ts: it takes
the perception but only calls `think` on a fixed string. -/
def idleBehavior (caps : Capabilities) (p : Perception) :
    ActionResult × List Event :=
  (.Thought (caps.think idleMessage), [.ThinkEv idleMessage])

/-- The `curious` behavior registered with `dot.on` in soul.ts. -/
def curiousBehavior (caps : Capabilities) (p : Perception) :
    ActionResult × List Event :=
  (.Thought (caps.think curiousMessage), [.ThinkEv curiousMessage])

/-- The `empathetic` behavior registered with `dot.on` in soul.ts. -/
def empatheticBehavior (caps : Capabilities) (p : Perception) :
    ActionResult × List Event :=
  (.Thought (caps.think empatheticMessage), [.ThinkEv empatheticMessage])

/-- The `playful` behavior registered with `dot.on` in soul.ts. -/
def playfulBehavior (caps : Capabilities) (p : Perception) :
    ActionResult × List Event :=
  (.Thought (caps.think playfulMessage), [.ThinkEv playfulMessage])

/-- Failure of the mode dispatcher on a mode outside the enumerated
set. -/
inductive UnknownModeError where
  | unknownMode (mode : String)
deriving DecidableEq

/-- The enumerated mode set: the four modes soul.ts registers with
`dot.on`. -/
def enumeratedModes : List String := ["idle", "curious", "empathetic", "playful"]

/-- Modelled from the spec: the mode dispatcher `select(mode)` of the
Mental-Process Selector lives in the Soul Engine library, not in this
repository; soul.ts only registers the four behaviors.  Following the
spec, `select` maps each enumerated mode label to the behavior soul.ts
registers for it and fails with `UnknownModeError` on any other
string. -/
def select (mode : String) :
    Except UnknownModeError (Capabilities → Perception → ActionResult × List Event) :=
  if mode = "idle" then .ok idleBehavior
  else if mode = "curious" then .ok curiousBehavior
  else if mode = "empathetic" then .ok empatheticBehavior
  else if mode = "playful" then .ok playfulBehavior
  else .error (.unknownMode mode)

/-- Modelled from the spec: the caller falls back to the `idle`
behavior, rather than crashing, when `select` fails with
`UnknownModeError`. -/
def selectWithFallback (mode : String) :
    Capabilities → Perception → ActionResult × List Event :=
  match select mode with
  | .ok b => b
  | .error _ => idleBehavior

/-- Stub capabilities used for concrete evaluation: `speak` echoes its
input with a fixed greeting in front, `think` and `observe` echo. -/
def stubCaps : Capabilities :=
  { speak := fun s => "Dot: " ++ s
    think := fun s => s
    observe := fun s => s }

/-- The identity constructed in soul.ts. -/
def dotIdentity : Identity :=
  { name := "Dot"
    description := "A curious and friendly ladybug digital being" }

/-- A concrete `experience` perception, from the worked example of the
specification. -/
def expPerception : Perception :=
  { type := "experience", content := "met a new friend" }

/-- A store whose append fails, with an empty log. -/
def failingStore : MemoryStore := { log := [], failing := true }

/-- A concrete perception whose type is outside the recognized set. -/
def obsPerception : Perception :=
  { type := "garden_event", content := "a leaf fell" }

/-- A concrete `self_reflection` perception. -/
def reflPerception : Perception :=
  { type := "self_reflection", content := "why do I like leaves" }

/-- C8: the perception with type `user_message` and content `hello`,
processed with a stub `speak` that returns its input with the fixed
greeting in front, yields `Spoken` of the stubbed output `Dot: hello`
and a single `speak` call carrying the content unchanged. -/
theorem user_message_hello_example :
    (processPerception stubCaps dotIdentity 0 freshStore
        { type := "user_message", content := "hello" }).1 =
      .ok (.Spoken "Dot: hello", freshStore) ∧
    (processPerception stubCaps dotIdentity 0 freshStore
        { type := "user_message", content := "hello" }).2 =
      [.SpeakEv "hello"] := by
  exact ⟨rfl, rfl⟩

/-- C1: for every `experience` perception processed with a store whose
append succeeds, the router appends exactly once, the append comes
strictly before the single `think` call in the trace, and the result
is a `Thought`. -/
theorem experience_append_once_before_think
    (caps : Capabilities) (identity : Identity) (now : Nat)
    (store : MemoryStore) (p : Perception)
    (htype : p.type = "experience") (hok : store.failing = false) :
    (onPerception caps identity now store p).2 =
      [.AppendEv { content := p.content, timestamp := now, owner := identity },
       .ThinkEv ackMessage] ∧
    ((onPerception caps identity now store p).2.countP Event.isAppend) = 1 ∧
    (onPerception caps identity now store p).1 =
      .ok (.Thought (caps.think ackMessage),
        { store with
            log := store.log ++
              [{ content := p.content, timestamp := now, owner := identity }] }) := by
  have htr : (onPerception caps identity now store p).2 =
      [.AppendEv { content := p.content, timestamp := now, owner := identity },
       .ThinkEv ackMessage] := by
    simp [onPerception, MemoryStore.append, htype, hok]
  refine ⟨htr, ?_, ?_⟩
  · rw [htr]; rfl
  · simp [onPerception, MemoryStore.append, htype, hok]

/-- Witness for C1 at a concrete experience perception and a fresh
store. -/
theorem experience_append_once_before_think_witness :
    expPerception.type = "experience" ∧ freshStore.failing = false ∧
    ((onPerception stubCaps dotIdentity 0 freshStore expPerception).2 =
      [.AppendEv { content := expPerception.content, timestamp := 0, owner := dotIdentity },
       .ThinkEv ackMessage] ∧
    ((onPerception stubCaps dotIdentity 0 freshStore expPerception).2.countP Event.isAppend) = 1 ∧
    (onPerception stubCaps dotIdentity 0 freshStore expPerception).1 =
      .ok (.Thought (stubCaps.think ackMessage),
        { freshStore with
            log := freshStore.log ++
              [{ content := expPerception.content, timestamp := 0, owner := dotIdentity }] })) :=
  ⟨rfl, rfl,
    experience_append_once_before_think stubCaps dotIdentity 0 freshStore expPerception rfl rfl⟩

/-- C2: for every `experience` perception processed with a store whose
append fails, `think` is never called, the only call is the failed
append, and the result signals `StorageError`. -/
theorem experience_append_fails_no_think
    (caps : Capabilities) (identity : Identity) (now : Nat)
    (store : MemoryStore) (p : Perception)
    (htype : p.type = "experience") (hfail : store.failing = true) :
    (onPerception caps identity now store p).1 = .error .appendFailed ∧
    ((onPerception caps identity now store p).2.countP Event.isThink) = 0 ∧
    (onPerception caps identity now store p).2 =
      [.AppendEv { content := p.content, timestamp := now, owner := identity }] := by
  have htr : (onPerception caps identity now store p).2 =
      [.AppendEv { content := p.content, timestamp := now, owner := identity }] := by
    simp [onPerception, MemoryStore.append, htype, hfail]
  refine ⟨?_, ?_, htr⟩
  · simp [onPerception, MemoryStore.append, htype, hfail]
  · rw [htr]; rfl

/-- Witness for C2 at a concrete experience perception and a failing
store. -/
theorem experience_append_fails_no_think_witness :
    expPerception.type = "experience" ∧ failingStore.failing = true ∧
    ((onPerception stubCaps dotIdentity 0 failingStore expPerception).1 = .error .appendFailed ∧
    ((onPerception stubCaps dotIdentity 0 failingStore expPerception).2.countP Event.isThink) = 0 ∧
    (onPerception stubCaps dotIdentity 0 failingStore expPerception).2 =
      [.AppendEv { content := expPerception.content, timestamp := 0, owner := dotIdentity }]) :=
  ⟨rfl, rfl,
    experience_append_fails_no_think stubCaps dotIdentity 0 failingStore expPerception rfl rfl⟩

/-- C3: for every `user_message` perception the router makes exactly
one `speak` call and no append, returns `Spoken` of the backend output
on the perception content, and leaves the store unchanged. -/
theorem user_message_speaks_once
    (caps : Capabilities) (identity : Identity) (now : Nat)
    (store : MemoryStore) (p : Perception)
    (htype : p.type = "user_message") :
    (onPerception caps identity now store p).1 =
      .ok (.Spoken (caps.speak p.content), store) ∧
    (onPerception caps identity now store p).2 = [.SpeakEv p.content] ∧
    ((onPerception caps identity now store p).2.countP Event.isSpeak) = 1 ∧
    ((onPerception caps identity now store p).2.countP Event.isAppend) = 0 := by
  have htr : (onPerception caps identity now store p).2 = [.SpeakEv p.content] := by
    simp [onPerception, htype]
  refine ⟨?_, htr, ?_, ?_⟩
  · simp [onPerception, htype]
  · rw [htr]; rfl
  · rw [htr]; rfl

/-- Witness for C3 at a concrete user message. -/
theorem user_message_speaks_once_witness :
    (Perception.mk "user_message" "hello").type = "user_message" ∧
    ((onPerception stubCaps dotIdentity 0 freshStore (Perception.mk "user_message" "hello")).1 =
      .ok (.Spoken (stubCaps.speak (Perception.mk "user_message" "hello").content), freshStore) ∧
    (onPerception stubCaps dotIdentity 0 freshStore (Perception.mk "user_message" "hello")).2 =
      [.SpeakEv (Perception.mk "user_message" "hello").content] ∧
    ((onPerception stubCaps dotIdentity 0 freshStore
        (Perception.mk "user_message" "hello")).2.countP Event.isSpeak) = 1 ∧
    ((onPerception stubCaps dotIdentity 0 freshStore
        (Perception.mk "user_message" "hello")).2.countP Event.isAppend) = 0) :=
  ⟨rfl,
    user_message_speaks_once stubCaps dotIdentity 0 freshStore
      (Perception.mk "user_message" "hello") rfl⟩

/-- C4: for every perception whose type is none of `user_message`,
`self_reflection` and `experience`, the router returns `Observed`
without error, never calls `speak` or `think`, and leaves the store
unchanged: the router is total. -/
theorem unknown_type_observed_total
    (caps : Capabilities) (identity : Identity) (now : Nat)
    (store : MemoryStore) (p : Perception)
    (h1 : p.type ≠ "user_message") (h2 : p.type ≠ "self_reflection")
    (h3 : p.type ≠ "experience") :
    (onPerception caps identity now store p).1 =
      .ok (.Observed (caps.observe p.content), store) ∧
    (onPerception caps identity now store p).2 = [.ObserveEv p.content] ∧
    ((onPerception caps identity now store p).2.countP Event.isSpeak) = 0 ∧
    ((onPerception caps identity now store p).2.countP Event.isThink) = 0 := by
  have htr : (onPerception caps identity now store p).2 = [.ObserveEv p.content] := by
    simp [onPerception, h1, h2, h3]
  refine ⟨?_, htr, ?_, ?_⟩
  · simp [onPerception, h1, h2, h3]
  · rw [htr]; rfl
  · rw [htr]; rfl

/-- Witness for C4 at a concrete unrecognized perception type. -/
theorem unknown_type_observed_total_witness :
    obsPerception.type ≠ "user_message" ∧ obsPerception.type ≠ "self_reflection" ∧
    obsPerception.type ≠ "experience" ∧
    ((onPerception stubCaps dotIdentity 0 freshStore obsPerception).1 =
      .ok (.Observed (stubCaps.observe obsPerception.content), freshStore) ∧
    (onPerception stubCaps dotIdentity 0 freshStore obsPerception).2 =
      [.ObserveEv obsPerception.content] ∧
    ((onPerception stubCaps dotIdentity 0 freshStore obsPerception).2.countP Event.isSpeak) = 0 ∧
    ((onPerception stubCaps dotIdentity 0 freshStore obsPerception).2.countP Event.isThink) = 0) :=
  ⟨by decide, by decide, by decide,
    unknown_type_observed_total stubCaps dotIdentity 0 freshStore obsPerception
      (by decide) (by decide) (by decide)⟩

/-- C5: for every `self_reflection` perception the router invokes
`think` on the perception content and returns a `Thought`; the result
is never a `Spoken`. -/
theorem self_reflection_returns_thought
    (caps : Capabilities) (identity : Identity) (now : Nat)
    (store : MemoryStore) (p : Perception)
    (htype : p.type = "self_reflection") :
    (onPerception caps identity now store p).1 =
      .ok (.Thought (caps.think p.content), store) ∧
    (onPerception caps identity now store p).2 = [.ThinkEv p.content] ∧
    ∀ (text : String) (s : MemoryStore),
      (onPerception caps identity now store p).1 ≠ .ok (.Spoken text, s) := by
  have hres : (onPerception caps identity now store p).1 =
      .ok (.Thought (caps.think p.content), store) := by
    simp [onPerception, htype]
  refine ⟨hres, ?_, ?_⟩
  · simp [onPerception, htype]
  · intro text s hcontra
    rw [hres] at hcontra
    simp at hcontra

/-- Witness for C5 at a concrete self-reflection perception. -/
theorem self_reflection_returns_thought_witness :
    reflPerception.type = "self_reflection" ∧
    ((onPerception stubCaps dotIdentity 0 freshStore reflPerception).1 =
      .ok (.Thought (stubCaps.think reflPerception.content), freshStore) ∧
    (onPerception stubCaps dotIdentity 0 freshStore reflPerception).2 =
      [.ThinkEv reflPerception.content] ∧
    ∀ (text : String) (s : MemoryStore),
      (onPerception stubCaps dotIdentity 0 freshStore reflPerception).1 ≠
        .ok (.Spoken text, s)) :=
  ⟨rfl, self_reflection_returns_thought stubCaps dotIdentity 0 freshStore reflPerception rfl⟩

/-- C6: `select` is total over the enumerated mode set: every mode in
the set yields a behavior without error, every mode outside it fails
with `UnknownModeError`, and in that case the fallback dispatch
resolves to the `idle` behavior instead of crashing. -/
theorem select_total_with_fallback (mode : String) :
    (mode ∈ enumeratedModes → (select mode).isOk = true) ∧
    (mode ∉ enumeratedModes →
      select mode = .error (.unknownMode mode) ∧
      selectWithFallback mode = idleBehavior) := by
  by_cases h1 : mode = "idle"
  · subst h1; exact ⟨fun _ => rfl, fun hmem => absurd (by decide) hmem⟩
  · by_cases h2 : mode = "curious"
    · subst h2; exact ⟨fun _ => rfl, fun hmem => absurd (by decide) hmem⟩
    · by_cases h3 : mode = "empathetic"
      · subst h3; exact ⟨fun _ => rfl, fun hmem => absurd (by decide) hmem⟩
      · by_cases h4 : mode = "playful"
        · subst h4; exact ⟨fun _ => rfl, fun hmem => absurd (by decide) hmem⟩
        · constructor
          · intro hmem
            simp [enumeratedModes, h1, h2, h3, h4] at hmem
          · intro _
            constructor
            · simp [select, h1, h2, h3, h4]
            · simp [selectWithFallback, select, h1, h2, h3, h4]

/-- Witness for C6: an enumerated mode selects a behavior and an
unknown mode fails and falls back to `idle`. -/
theorem select_total_with_fallback_witness :
    ("curious" ∈ enumeratedModes ∧ (select "curious").isOk = true) ∧
    ("dreaming" ∉ enumeratedModes ∧
      select "dreaming" = .error (.unknownMode "dreaming") ∧
      selectWithFallback "dreaming" = idleBehavior) :=
  ⟨⟨by decide, (select_total_with_fallback "curious").1 (by decide)⟩,
   ⟨by decide, (select_total_with_fallback "dreaming").2 (by decide)⟩⟩

/-- C7: processing the same `experience` perception twice with
identical arguments starting from a fresh store appends two
independent records: the log after the second call holds both, so
append is not deduplicated. -/
theorem append_not_deduplicated
    (caps : Capabilities) (identity : Identity) (now : Nat) (p : Perception)
    (htype : p.type = "experience") :
    ∃ (res1 : ActionResult) (store1 : MemoryStore)
      (res2 : ActionResult) (store2 : MemoryStore),
      (processPerception caps identity now freshStore p).1 = .ok (res1, store1) ∧
      (processPerception caps identity now store1 p).1 = .ok (res2, store2) ∧
      store2.log =
        [{ content := p.content, timestamp := now, owner := identity },
         { content := p.content, timestamp := now, owner := identity }] ∧
      store2.log.length = 2 := by
  refine ⟨.Thought (caps.think ackMessage),
    { log := [{ content := p.content, timestamp := now, owner := identity }],
      failing := false },
    .Thought (caps.think ackMessage),
    { log := [{ content := p.content, timestamp := now, owner := identity },
              { content := p.content, timestamp := now, owner := identity }],
      failing := false }, ?_, ?_, rfl, rfl⟩
  · simp [processPerception, onPerception, MemoryStore.append, freshStore, htype]
  · simp [processPerception, onPerception, MemoryStore.append, htype]

/-- Witness for C7 at a concrete experience perception. -/
theorem append_not_deduplicated_witness :
    expPerception.type = "experience" ∧
    ∃ (res1 : ActionResult) (store1 : MemoryStore)
      (res2 : ActionResult) (store2 : MemoryStore),
      (processPerception stubCaps dotIdentity 0 freshStore expPerception).1 =
        .ok (res1, store1) ∧
      (processPerception stubCaps dotIdentity 0 store1 expPerception).1 =
        .ok (res2, store2) ∧
      store2.log =
        [{ content := expPerception.content, timestamp := 0, owner := dotIdentity },
         { content := expPerception.content, timestamp := 0, owner := dotIdentity }] ∧
      store2.log.length = 2 :=
  ⟨rfl, append_not_deduplicated stubCaps dotIdentity 0 expPerception rfl⟩

/-- C9: for every `experience` perception whose append succeeds, the
acknowledgment passed to `think` is literally the fixed string, no
matter what the perception content is. -/
theorem experience_ack_fixed_string
    (caps : Capabilities) (identity : Identity) (now : Nat)
    (store : MemoryStore) (p : Perception)
    (htype : p.type = "experience") (hok : store.failing = false) :
    (onPerception caps identity now store p).2.filter Event.isThink =
      [.ThinkEv "I\x27ll remember this..."] ∧
    ∀ (q : Perception), q.type = "experience" →
      (onPerception caps identity now store p).2.filter Event.isThink =
        (onPerception caps identity now store q).2.filter Event.isThink := by
  have key : ∀ (r : Perception), r.type = "experience" →
      (onPerception caps identity now store r).2.filter Event.isThink =
        [.ThinkEv "I\x27ll remember this..."] := by
    intro r hr
    simp [onPerception, MemoryStore.append, hr, hok, ackMessage,
      List.filter, Event.isThink, Event.isAppend]
  refine ⟨key p htype, fun q hq => ?_⟩
  rw [key p htype, key q hq]

/-- Witness for C9: two experience perceptions with different contents
produce the same fixed `think` call. -/
theorem experience_ack_fixed_string_witness :
    expPerception.type = "experience" ∧ freshStore.failing = false ∧
    ((onPerception stubCaps dotIdentity 0 freshStore expPerception).2.filter Event.isThink =
      [.ThinkEv "I\x27ll remember this..."] ∧
    ∀ (q : Perception), q.type = "experience" →
      (onPerception stubCaps dotIdentity 0 freshStore expPerception).2.filter Event.isThink =
        (onPerception stubCaps dotIdentity 0 freshStore q).2.filter Event.isThink) :=
  ⟨rfl, rfl,
    experience_ack_fixed_string stubCaps dotIdentity 0 freshStore expPerception rfl rfl⟩

/-- C10: each built-in mode behavior ignores the perception: for any
two perceptions it passes the same fixed string to `think` and yields
the same result. -/
theorem behaviors_ignore_perception (caps : Capabilities) (p q : Perception) :
    idleBehavior caps p = idleBehavior caps q ∧
    curiousBehavior caps p = curiousBehavior caps q ∧
    empatheticBehavior caps p = empatheticBehavior caps q ∧
    playfulBehavior caps p = playfulBehavior caps q ∧
    (idleBehavior caps p).2 = [.ThinkEv idleMessage] ∧
    (curiousBehavior caps p).2 = [.ThinkEv curiousMessage] ∧
    (empatheticBehavior caps p).2 = [.ThinkEv empatheticMessage] ∧
    (playfulBehavior caps p).2 = [.ThinkEv playfulMessage] :=
  ⟨rfl, rfl, rfl, rfl, rfl, rfl, rfl, rfl⟩
